import Mathlib

set_option maxRecDepth 16384

/-!
Shallow embedding of the two command-line scripts of this repository:
`src/python/compose.py` (interactive field-file composition) and
`src/python/wavy.py` (wavy session-file generator).

Each Python script is a straight-line top-level program; we model a run as a
pure function from the program's inputs (command-line arguments, the contents
of the named field files, and the replies typed at the interactive prompts)
to the observable outcome of the process (files created, header values, the
kind of termination).  The binary field-file codec (`fieldfile` module) is an
external collaborator: we model a field file by the header data and data
arrays it exposes, as described in the spec's external-interface section.
-/

namespace Semtex

/-- Geometry descriptor of a field-file header: {nr, ns, nel, nz}
(`file.hdr.geometry` in `compose.py`). -/
structure Geometry where
  nr : Nat
  ns : Nat
  nel : Nat
  nz : Nat
deriving DecidableEq

/-- Field-file header as exposed by the external `fieldfile` codec:
geometry descriptor, field-name string (one character per field),
simulation time and step count.  (The codec also exposes a derived total
count `ntot`, which `compose.py` only prints; it is not modelled.) -/
structure Header where
  geometry : Geometry
  fields : String
  time : ℚ
  step : Nat
deriving DecidableEq

/-- Contents of a field file: its header and one data array per character of
`hdr.fields`.  Samples are modelled as integers (bit-for-bit copies are the
only operations at issue, never arithmetic on samples). -/
structure FieldFile where
  hdr : Header
  data : List (List Int)
deriving DecidableEq

/-- All inputs consumed by one run of `compose.py`: the argument vector
(program name included, as in `sys.argv`), the contents of the one or two
field files named by the arguments, and the two interactive replies. -/
structure ComposeInput where
  argv : List String
  file1 : FieldFile
  file2 : FieldFile
  requiredFields : String
  outfileName : String

/-- Runtime errors that a run of `compose.py` can die with. -/
inductive PyError where
  /-- A reference to a name that was never assigned (Python `NameError`). -/
  | nameError (n : String)
  /-- A list subscript out of range (Python `IndexError`). -/
  | indexError
deriving DecidableEq

/-- An output field file created by `fieldfile.Fieldfile(name, "w", hdr)`:
its name and the state of its header object. -/
structure OutFile where
  name : String
  hdr : Header
deriving DecidableEq

/-- Observable outcome of a run of `compose.py`. -/
inductive ComposeOutcome where
  /-- Wrong argument count: usage message, `sys.exit(1)` (lines 37-38). -/
  | usageAbort
  /-- Dual-file mode, geometry mismatch: report, `sys.exit(1)` (lines 28-35). -/
  | conformAbort
  /-- The run died with an uncaught exception; `created` records the output
  file already opened in write mode at that point, if any.  An uncaught
  exception terminates the process with exit status 1. -/
  | crash (e : PyError) (created : Option OutFile)
  /-- The run reached the final data write `ff_out.write(data)` (line 75)
  and wrote the given arrays.  (Kept in the model so that "the program never
  writes field data" is a statable, falsifiable proposition.) -/
  | success (created : OutFile) (written : List (List Int))
deriving DecidableEq

/-- Tokeniser used at line 43, `re.findall(r'\S+', required_fields)`:
the maximal runs of non-whitespace characters, in order.  `acc` holds the
(reversed) characters of the token currently being scanned. -/
def tokensAux : List Char → List Char → List String
  | [], [] => []
  | [], a :: as => [String.mk (a :: as).reverse]
  | c :: cs, [] =>
      if c.isWhitespace then tokensAux cs [] else tokensAux cs [c]
  | c :: cs, a :: as =>
      if c.isWhitespace then
        String.mk (a :: as).reverse :: tokensAux cs []
      else
        tokensAux cs (c :: a :: as)

/-- `re.findall(r'\S+', s)`: whitespace-delimited tokens of `s`. -/
def splitTokens (s : String) : List String :=
  tokensAux s.toList []

/-- Conformance test of lines 28-31: the negation of the mismatch condition
`(nr != nr) or (ns != ns) or (nz != nz) or (nel != nel)`. -/
def checkConformance (f1 f2 : FieldFile) : Bool :=
  !((f1.hdr.geometry.nr != f2.hdr.geometry.nr) ||
    (f1.hdr.geometry.ns != f2.hdr.geometry.ns) ||
    (f1.hdr.geometry.nz != f2.hdr.geometry.nz) ||
    (f1.hdr.geometry.nel != f2.hdr.geometry.nel))

/-- The single-character field names available in a header's field string,
as presented to the user at line 40 of `compose.py`. -/
def availableFields (h : Header) : List String :=
  h.fields.toList.map (fun c => String.mk [c])

/-- One run of `compose.py`, statement by statement.

* Lines 21-23: `len(sys.argv) == 2` selects single-file mode.
* Lines 24-35: `len(sys.argv) == 3` selects dual-file mode and runs the
  conformance check; mismatch exits with status 1 before any prompt.
* Lines 36-38: any other argument count prints usage and exits with 1.
* Line 43 (single-file mode only): `wanted = re.findall(r'\S+', ...)`.
* Line 45: the output name is read; line 47 opens the output file in write
  mode, handing it `file1.hdr`.
* Line 48: `ofile.hdr.fields = wanted[0]`.  The right-hand side is evaluated
  first: in dual-file mode the name `wanted` was never assigned, raising
  `NameError`; in single-file mode with an empty selection `wanted[0]`
  raises `IndexError`; otherwise the header's field string becomes the
  first token of the selection.
* Line 53: `for i, field in enumerate(ff.fields)` — the name `ff` is never
  assigned anywhere in `compose.py` (the names bound by the script are
  `mode`, `file1`, `file2`, `required_fields`, `wanted`, `outfile`, `ofile`,
  `data_dict`, `i`, `field`), so every run that reaches this line dies with
  `NameError: ff`.  Lines 53-75 (the data-copy loop, the `uvcp` check, the
  zeroing transform and the final write, pasted from `c2w.py`) are therefore
  unreachable dead code. -/
def composeRun (inp : ComposeInput) : ComposeOutcome :=
  if inp.argv.length = 2 then
    match splitTokens inp.requiredFields with
    | [] =>
        ComposeOutcome.crash PyError.indexError
          (some ⟨inp.outfileName, inp.file1.hdr⟩)
    | w :: _ =>
        ComposeOutcome.crash (PyError.nameError "ff")
          (some ⟨inp.outfileName, { inp.file1.hdr with fields := w }⟩)
  else if inp.argv.length = 3 then
    if checkConformance inp.file1 inp.file2 then
      ComposeOutcome.crash (PyError.nameError "wanted")
        (some ⟨inp.outfileName, inp.file1.hdr⟩)
    else
      ComposeOutcome.conformAbort
  else
    ComposeOutcome.usageAbort

/-- The output file created during a run, if any. -/
def outputCreated : ComposeOutcome → Option OutFile
  | ComposeOutcome.crash _ o => o
  | ComposeOutcome.success o _ => some o
  | _ => none

/-- Process exit status of an outcome: `sys.exit(1)` and uncaught exceptions
give 1; only a completed write would give 0. -/
def exitCode : ComposeOutcome → Nat
  | ComposeOutcome.success _ _ => 0
  | _ => 1

/-- A run that gets past the argument-count check and (in dual-file mode)
the conformance check. -/
def passesChecks (inp : ComposeInput) : Prop :=
  inp.argv.length = 2 ∨
    (inp.argv.length = 3 ∧ checkConformance inp.file1 inp.file2 = true)

/-- A sample header with field string "uvp". -/
def hdrUVP : Header := ⟨⟨2, 2, 4, 1⟩, "uvp", 0, 0⟩

/-- A sample field file with fields "uvp" and one sample per field. -/
def fileUVP : FieldFile := ⟨hdrUVP, [[1], [2], [3]]⟩

/-- Single-file run on `fileUVP` with the two-token selection "u v". -/
def inputUV : ComposeInput :=
  ⟨["compose.py", "in.fld"], fileUVP, fileUVP, "u v", "out.fld"⟩

/-- Single-file run on `fileUVP` requesting the unknown field name "q". -/
def inputQ : ComposeInput :=
  ⟨["compose.py", "in.fld"], fileUVP, fileUVP, "q", "out.fld"⟩

/-- Single-file run on `fileUVP` with an empty selection reply. -/
def inputEmptySel : ComposeInput :=
  ⟨["compose.py", "in.fld"], fileUVP, fileUVP, "", "out.fld"⟩

/-- Single-file run on `fileUVP` selecting the full field set "uvp". -/
def inputFull : ComposeInput :=
  ⟨["compose.py", "in.fld"], fileUVP, fileUVP, "uvp", "out.fld"⟩

/-- A header like `hdrUVP` but with a different z-mode count. -/
def hdrUVPnz2 : Header := ⟨⟨2, 2, 4, 2⟩, "uvp", 0, 0⟩

/-- Dual-file run whose two files differ in `nz` only. -/
def inputMismatch : ComposeInput :=
  ⟨["compose.py", "a.fld", "b.fld"], fileUVP, ⟨hdrUVPnz2, [[1], [2], [3]]⟩,
   "", "out.fld"⟩

/-- Dual-file run on two conformant copies of `fileUVP`. -/
def inputConformant : ComposeInput :=
  ⟨["compose.py", "a.fld", "b.fld"], fileUVP, fileUVP, "", "out.fld"⟩

/-- Sample header/field file with field string "uvcp" and nonzero
time and step metadata. -/
def hdrUVCP : Header := ⟨⟨2, 2, 4, 1⟩, "uvcp", 5, 7⟩

/-- Field file carrying `hdrUVCP`. -/
def fileUVCP : FieldFile := ⟨hdrUVCP, [[1], [2], [3], [4]]⟩

/-- Single-file run on the "uvcp" file, selecting "uvcp". -/
def inputUVCP : ComposeInput :=
  ⟨["compose.py", "in.fld"], fileUVCP, fileUVCP, "uvcp", "out.fld"⟩

/-- C1 counterexample: on a field file with fields "uvp" and the
whitespace-delimited selection "u v", the output header's field-name string
is "u" — the first requested token only — not the full requested subset
"uv" in requested order.  (`ofile.hdr.fields = wanted[0]` at line 48 keeps
only the first token.) -/
theorem compose_fields_not_full_subset :
    (outputCreated (composeRun inputUV)).map (fun o => o.hdr.fields) =
      some "u" ∧ ("u" : String) ≠ "uv" := by decide

/-- C1 amended: in single-file mode, whenever the selection tokenises to at
least one token, the output file's header field-name string equals the FIRST
whitespace-delimited token of the selection (later tokens are dropped). -/
theorem compose_fields_eq_first_token (inp : ComposeInput) (t : String)
    (ts : List String) (h1 : inp.argv.length = 2)
    (h2 : splitTokens inp.requiredFields = t :: ts) :
    (outputCreated (composeRun inp)).map (fun o => o.hdr.fields) = some t := by
  simp [composeRun, h1, h2, outputCreated]

/-- C1 witness: the amended theorem applied to the concrete run `inputUV`. -/
theorem compose_fields_eq_first_token_witness :
    inputUV.argv.length = 2 ∧ splitTokens inputUV.requiredFields = ["u", "v"] ∧
      (outputCreated (composeRun inputUV)).map (fun o => o.hdr.fields) =
        some "u" :=
  ⟨by decide, by decide,
   compose_fields_eq_first_token inputUV "u" ["v"] (by decide) (by decide)⟩

/-- C2: in dual-file mode the conformance check succeeds exactly when all
four geometry values {nr, ns, nel, nz} agree, and on a mismatch the run
stops with `sys.exit(1)` — a non-zero status — before any output file is
created. -/
theorem compose_conformance_check (inp : ComposeInput)
    (h : inp.argv.length = 3) :
    (checkConformance inp.file1 inp.file2 = true ↔
      (inp.file1.hdr.geometry.nr = inp.file2.hdr.geometry.nr ∧
       inp.file1.hdr.geometry.ns = inp.file2.hdr.geometry.ns ∧
       inp.file1.hdr.geometry.nel = inp.file2.hdr.geometry.nel ∧
       inp.file1.hdr.geometry.nz = inp.file2.hdr.geometry.nz)) ∧
    (checkConformance inp.file1 inp.file2 = false →
      composeRun inp = ComposeOutcome.conformAbort ∧
      outputCreated (composeRun inp) = none ∧
      exitCode (composeRun inp) ≠ 0) := by
  constructor
  · simp [checkConformance]
    tauto
  · intro hf
    have h2 : ¬ inp.argv.length = 2 := by omega
    simp [composeRun, h, h2, hf, outputCreated, exitCode]

/-- C2 witness: the theorem applied to the concrete mismatching pair
`inputMismatch` (files differing in `nz` only). -/
theorem compose_conformance_check_witness :
    composeRun inputMismatch = ComposeOutcome.conformAbort ∧
    outputCreated (composeRun inputMismatch) = none :=
  ⟨((compose_conformance_check inputMismatch (by decide)).2 (by decide)).1,
   ((compose_conformance_check inputMismatch (by decide)).2 (by decide)).2.1⟩

/-- C3 (code bug): composing a field file with its full field set "uvp"
never copies any data — the run dies with `NameError: ff` at the copy loop
(line 53; `ff` and `data` are never assigned), so the final data write is
never reached and no output data can round-trip. -/
theorem compose_copy_never_runs :
    composeRun inputFull =
      ComposeOutcome.crash (PyError.nameError "ff")
        (some ⟨"out.fld", { hdrUVP with fields := "uvp" }⟩) ∧
    ∀ o d, composeRun inputFull ≠ ComposeOutcome.success o d := by
  have h1 : composeRun inputFull =
      ComposeOutcome.crash (PyError.nameError "ff")
        (some ⟨"out.fld", { hdrUVP with fields := "uvp" }⟩) := by decide
  refine ⟨h1, fun o d heq => ?_⟩
  rw [h1] at heq
  simp at heq

/-- C4 counterexample: requesting the unknown field name "q" from a file
whose fields are "uvp" raises no selection error and an output file IS
created — its header's field string even becomes the unknown name "q". -/
theorem compose_unknown_name_accepted :
    outputCreated (composeRun inputQ) =
      some ⟨"out.fld", { hdrUVP with fields := "q" }⟩ ∧
    composeRun inputQ =
      ComposeOutcome.crash (PyError.nameError "ff")
        (some ⟨"out.fld", { hdrUVP with fields := "q" }⟩) := by decide

/-- C4 amended: the selection is never validated against the source header.
A single-file run whose selection contains a token that is not one of the
source's field names proceeds exactly as any other run: the output file is
created with the first token as its field string, and the run then dies
with `NameError: ff` like every other run. -/
theorem compose_no_selection_validation (inp : ComposeInput) (t : String)
    (ts : List String) (h1 : inp.argv.length = 2)
    (h2 : splitTokens inp.requiredFields = t :: ts)
    (_h3 : ∃ u ∈ t :: ts, ¬ u ∈ availableFields inp.file1.hdr) :
    composeRun inp =
      ComposeOutcome.crash (PyError.nameError "ff")
        (some ⟨inp.outfileName, { inp.file1.hdr with fields := t }⟩) ∧
    outputCreated (composeRun inp) ≠ none := by
  have hr : composeRun inp =
      ComposeOutcome.crash (PyError.nameError "ff")
        (some ⟨inp.outfileName, { inp.file1.hdr with fields := t }⟩) := by
    simp [composeRun, h1, h2]
  exact ⟨hr, by rw [hr]; simp [outputCreated]⟩

/-- C4 witness: the amended theorem applied to the concrete run `inputQ`
("q" is not among the fields "uvp"). -/
theorem compose_no_selection_validation_witness :
    (∃ u ∈ ["q"], ¬ u ∈ availableFields fileUVP.hdr) ∧
    composeRun inputQ =
      ComposeOutcome.crash (PyError.nameError "ff")
        (some ⟨"out.fld", { hdrUVP with fields := "q" }⟩) ∧
    outputCreated (composeRun inputQ) ≠ none :=
  ⟨⟨"q", by decide, by decide⟩,
   compose_no_selection_validation inputQ "q" [] (by decide) (by decide)
     ⟨"q", by decide, by decide⟩⟩

/-- C5 counterexample: a single-file run with an empty selection passes the
argument-count check (and there is no conformance check in that mode) yet
dies with an `IndexError` (`wanted[0]` on an empty list), not with an
unbound-variable `NameError`. -/
theorem compose_empty_selection_index_error :
    composeRun inputEmptySel =
      ComposeOutcome.crash PyError.indexError (some ⟨"out.fld", hdrUVP⟩) ∧
    ∀ n o, composeRun inputEmptySel ≠
      ComposeOutcome.crash (PyError.nameError n) o := by
  have h1 : composeRun inputEmptySel =
      ComposeOutcome.crash PyError.indexError (some ⟨"out.fld", hdrUVP⟩) := by
    decide
  refine ⟨h1, fun n o heq => ?_⟩
  rw [h1] at heq
  simp at heq

/-- C5 amended: every run that passes the argument-count check and (in
dual-file mode) the conformance check dies with an uncaught runtime error —
an unbound-variable `NameError` except for a single-file run with an empty
selection, which dies one line earlier with an `IndexError` — so no run
ever reaches the data write: the utility never successfully writes composed
field data, and the process status is always 1. -/
theorem compose_always_crashes (inp : ComposeInput) (h : passesChecks inp) :
    (∃ e o, composeRun inp = ComposeOutcome.crash e o) ∧
    ((splitTokens inp.requiredFields ≠ [] ∨ inp.argv.length = 3) →
      ∃ n o, composeRun inp = ComposeOutcome.crash (PyError.nameError n) o) ∧
    (∀ o d, composeRun inp ≠ ComposeOutcome.success o d) ∧
    exitCode (composeRun inp) = 1 := by
  rcases h with h2 | ⟨h3, hc⟩
  · cases hw : splitTokens inp.requiredFields with
    | nil =>
        have hr : composeRun inp =
            ComposeOutcome.crash PyError.indexError
              (some ⟨inp.outfileName, inp.file1.hdr⟩) := by
          simp [composeRun, h2, hw]
        refine ⟨⟨_, _, hr⟩, ?_, ?_, ?_⟩
        · rintro (hne | h3)
          · exact absurd rfl hne
          · omega
        · intro o d heq; rw [hr] at heq; simp at heq
        · rw [hr]; rfl
    | cons t ts =>
        have hr : composeRun inp =
            ComposeOutcome.crash (PyError.nameError "ff")
              (some ⟨inp.outfileName, { inp.file1.hdr with fields := t }⟩) := by
          simp [composeRun, h2, hw]
        refine ⟨⟨_, _, hr⟩, fun _ => ⟨_, _, hr⟩, ?_, ?_⟩
        · intro o d heq; rw [hr] at heq; simp at heq
        · rw [hr]; rfl
  · have h2 : ¬ inp.argv.length = 2 := by omega
    have hr : composeRun inp =
        ComposeOutcome.crash (PyError.nameError "wanted")
          (some ⟨inp.outfileName, inp.file1.hdr⟩) := by
      simp [composeRun, h2, h3, hc]
    refine ⟨⟨_, _, hr⟩, fun _ => ⟨_, _, hr⟩, ?_, ?_⟩
    · intro o d heq; rw [hr] at heq; simp at heq
    · rw [hr]; rfl

/-- C5 witness: the amended theorem applied to the concrete conformant
dual-file run `inputConformant`. -/
theorem compose_always_crashes_witness :
    passesChecks inputConformant ∧
    (∃ e o, composeRun inputConformant = ComposeOutcome.crash e o) :=
  ⟨Or.inr ⟨by decide, by decide⟩,
   (compose_always_crashes inputConformant (Or.inr ⟨by decide, by decide⟩)).1⟩

/-- C6 (code bug): on a field file whose fields are exactly "uvcp" the
specialised concentration-extraction transform never runs: the run dies
with `NameError: ff` at line 53, before the `uvcp` check, so the output
header's field string stays "uvcp" (never rewritten to "uvwp") and its
time and step metadata keep their input values 5 and 7 (never reset to 0).
Lines 57-74 are unreachable dead code pasted from `c2w.py`. -/
theorem compose_uvcp_transform_never_runs :
    composeRun inputUVCP =
      ComposeOutcome.crash (PyError.nameError "ff")
        (some ⟨"out.fld", hdrUVCP⟩) ∧
    (outputCreated (composeRun inputUVCP)).map (fun o => o.hdr.fields) =
      some "uvcp" ∧
    ("uvcp" : String) ≠ "uvwp" ∧
    (outputCreated (composeRun inputUVCP)).map (fun o => o.hdr.time) =
      some 5 ∧
    (outputCreated (composeRun inputUVCP)).map (fun o => o.hdr.step) =
      some 7 := by decide

/-! ### Wavy session generator (`src/python/wavy.py`)

The script computes the x/y sample sequences, writes them to
`<session>.rect`, pipes them through the external tools `rectmesh` and
`mapmesh` (opaque collaborators, out of scope), writes one dense point-list
file `wave<i>.geo` per selected y-sample, and emits a CURVES section that
is concatenated onto the session file.  We model the artifacts whose
contents the script itself computes: the sample sequences, the `.geo`
point lists and the CURVES section.  Floating-point values are modelled as
rationals; the library constants and functions `np.pi` and `np.sin` are
kept abstract as a parameter `p : ℚ` and a function `s : ℚ → ℚ`. -/

/-- `np.linspace(a, b, num)` (external numpy collaborator, standard
semantics): `num` evenly spaced samples from `a` to `b` inclusive. -/
def linspace (a b : ℚ) (num : ℕ) : List ℚ :=
  (List.range num).map fun i => a + (b - a) * i / ((num : ℚ) - 1)

/-- The fixed y-sample sequence of `wavy.py` line 48
(15 non-uniform control points in [0, 1]). -/
def wavyY : List ℚ :=
  [0, 0.075, 0.15, 0.25, 0.35, 0.45, 0.55, 0.65, 0.75, 0.84, 0.9, 0.945,
   0.975, 0.993, 1]

/-- The x-sample sequence of lines 45-46:
`x = np.linspace(0.0, 1.0, num=11); x = x * 2.0 * np.pi / beta_x`,
with `p` standing for `np.pi`. -/
def wavyXs (p beta : ℚ) : List ℚ :=
  (linspace 0 1 11).map fun v => v * 2 * p / beta

/-- The 960 sampled points written to one `wave<i>.geo` file (lines 95-98):
`xl = (x[len(x)-1]-x[0]) * j/(Nx-1)` and
`yl = y[i]*(1.0+eps_y*np.sin(xl*beta_x))`, with `xr` the precomputed
x-extent `x[len(x)-1]-x[0]`, `yi` the y-sample `y[i]`, `Nx = 960`. -/
def geoPoints (s : ℚ → ℚ) (beta eps xr yi : ℚ) : List (ℚ × ℚ) :=
  (List.range 960).map fun j : ℕ =>
    (xr * (j : ℚ) / 959, yi * (1 + eps * s (xr * (j : ℚ) / 959 * beta)))

/-- One emitted line of the CURVES section: curve ID (the counter `k`),
edge ID, the literal third column (3 in the first pass, 1 in the second)
and the referenced spline point-list file. -/
structure Curve where
  id : ℕ
  edge : ℕ
  side : ℕ
  geo : String
deriving DecidableEq

/-- Assign ascending curve IDs starting at `k` to (edge, side, row) triples
— the mutable counter `k` of `wavy.py`, incremented once per written line. -/
def numberFrom (k : ℕ) : List (ℕ × ℕ × ℕ) → List Curve
  | [] => []
  | t :: ts =>
      ⟨k, t.1, t.2.1, "wave" ++ toString t.2.2 ++ ".geo"⟩ ::
        numberFrom (k + 1) ts

/-- Number whole rows of triples, threading the counter across rows: `k` is
never reset between rows or passes, and the blank line written after each
row does not touch it. -/
def numberRows (k : ℕ) : List (List (ℕ × ℕ × ℕ)) → List (List Curve)
  | [] => []
  | r :: rs => numberFrom k r :: numberRows (k + r.length) rs

/-- The (edge, side, row) triples of the two passes of lines 107-121, one
inner list per row: first pass `i in range(1, len(y))` with edge
`(i-1)*(len(x)-1)+j` and column 3; second pass `i in range(1, len(y)-1)`
with edge `i*(len(x)-1)+j` and column 1; both with `j in range(1, len(x))`.
`nx`, `ny` are `len(x)`, `len(y)`. -/
def passRows (nx ny : ℕ) : List (List (ℕ × ℕ × ℕ)) :=
  ((List.range' 1 (ny - 1)).map fun i =>
    (List.range' 1 (nx - 1)).map fun j => ((i - 1) * (nx - 1) + j, 3, i)) ++
  ((List.range' 1 (ny - 2)).map fun i =>
    (List.range' 1 (nx - 1)).map fun j => (i * (nx - 1) + j, 1, i))

/-- The rows of CURVES-section lines, numbered from `k = 1`. -/
def curveRowsOf (nx ny : ℕ) : List (List Curve) :=
  numberRows 1 (passRows nx ny)

/-- All CURVES-section lines in emission order. -/
def curveLinesOf (nx ny : ℕ) : List Curve :=
  (curveRowsOf nx ny).flatten

/-- Python `'%5d' % n`: decimal digits left-padded with blanks to width 5. -/
def fmt5 (n : ℕ) : String :=
  String.mk (List.replicate (5 - (toString n).length) ' ') ++ toString n

/-- The text of one CURVES line:
`'%5d' % k + '%5d' % edge + '  3 <SPLINE> wave<i>.geo </SPLINE>' + '\n'`. -/
def curveLineText (c : Curve) : String :=
  fmt5 c.id ++ fmt5 c.edge ++ "  " ++ toString c.side ++ " <SPLINE> " ++
    c.geo ++ " </SPLINE>\n"

/-- The full text written to `curves.txt` (lines 103-125): the header with
the declared `NUMBER`, the numbered lines row by row with a blank line
after each row, and the closing tag. -/
def curvesTextOf (nx ny : ℕ) : String :=
  "\n<CURVES NUMBER=" ++ toString ((nx - 1) * (2 * (ny - 2) + 1)) ++ ">\n" ++
  String.join ((curveRowsOf nx ny).map fun r =>
    String.join (r.map curveLineText) ++ "\n") ++
  "</CURVES>\n"

/-- The artifacts computed by one run of `wavy.py` whose contents the
script itself determines (the outputs of `rectmesh`/`mapmesh` are opaque):
the two sample sequences, the `wave<i>.geo` point lists, and the CURVES
section (structured lines and literal text). -/
structure WavyArtifacts where
  xs : List ℚ
  ys : List ℚ
  geoFiles : List (String × List (ℚ × ℚ))
  curves : List Curve
  curvesText : String

/-- One run of `wavy.py` after successful argument parsing:
`s` abstracts `np.sin`, `p` abstracts `np.pi`, `beta` and `eps` are the
command-line reals `beta_x` and `eps_y`, and `session` is the session name
(it names the on-disk files but enters none of the modelled contents).
The `.geo` loop is `for i in range(1, len(y))` (line 93). -/
def wavyRun (s : ℚ → ℚ) (p beta eps : ℚ) (_session : String) :
    WavyArtifacts :=
  let xs := wavyXs p beta
  let ys := wavyY
  { xs := xs
    ys := ys
    geoFiles := (List.range' 1 (ys.length - 1)).map fun i =>
      ("wave" ++ toString i ++ ".geo",
        geoPoints s beta eps (xs.getD (xs.length - 1) 0 - xs.getD 0 0)
          (ys.getD i 0))
    curves := curveLinesOf xs.length ys.length
    curvesText := curvesTextOf xs.length ys.length }

/-- Every `wave<i>.geo` file holds exactly `Nx = 960` points. -/
theorem geoPoints_length (s : ℚ → ℚ) (beta eps xr yi : ℚ) :
    (geoPoints s beta eps xr yi).length = 960 := by
  simp only [geoPoints, List.length_map, List.length_range]

/-- The first sampled point of a `.geo` file sits at `x = 0`. -/
theorem geoPoints_headD_fst (s : ℚ → ℚ) (beta eps xr yi : ℚ) :
    ((geoPoints s beta eps xr yi).headD (0, 0)).1 = 0 := by
  show xr * ((0 : ℕ) : ℚ) / 959 = 0
  norm_num

/-- The last sampled point of a `.geo` file sits at `x = xr`, the full
x-extent handed to the sampler. -/
theorem geoPoints_getLastD_fst (s : ℚ → ℚ) (beta eps xr yi : ℚ) :
    ((geoPoints s beta eps xr yi).getLastD (0, 0)).1 = xr := by
  have h : List.range 960 = List.range 959 ++ [959] := List.range_succ 959
  rw [geoPoints, h, List.map_append]
  rw [List.map_cons, List.map_nil, List.getLastD_concat]
  show xr * ((959 : ℕ) : ℚ) / 959 = xr
  push_cast
  rw [mul_div_assoc]
  norm_num

/-- The first x-sample is `0 * 2π/beta = 0`. -/
theorem wavyXs_getD_zero (p beta : ℚ) : (wavyXs p beta).getD 0 0 = 0 := by
  show (0 + (1 - 0) * ((0 : ℕ) : ℚ) / (((11 : ℕ) : ℚ) - 1)) * 2 * p / beta = 0
  norm_num

/-- Mapping a constant over `range'` yields a `replicate`. -/
theorem map_const_range' {α : Type} (c : α) (a n : ℕ) :
    (List.range' a n).map (fun _ => c) = List.replicate n c := by
  induction n generalizing a with
  | zero => rfl
  | succ m ih => simp [List.range'_succ, List.replicate_succ, ih]

/-- C7: the CURVES section declares
`NUMBER = (len(x)-1) * (2*(len(y)-2)+1) = 10 * (2*13+1) = 270`; the lines
actually emitted (each carrying exactly one `<SPLINE>` tag) number exactly
270, and their curve IDs are the consecutive ascending sequence 1..270,
threaded across the two passes (all 14 rows in the first pass, the 13
interior rows in the second). -/
theorem wavy_curve_count (s : ℚ → ℚ) (p beta eps : ℚ) (session : String) :
    ((wavyRun s p beta eps session).xs.length - 1) *
      (2 * ((wavyRun s p beta eps session).ys.length - 2) + 1) = 270 ∧
    (wavyRun s p beta eps session).curves.length = 270 ∧
    (wavyRun s p beta eps session).curves.map Curve.id =
      List.range' 1 270 := by
  refine ⟨rfl, ?_, ?_⟩
  · show (curveLinesOf 11 15).length = 270
    decide
  · show (curveLinesOf 11 15).map Curve.id = List.range' 1 270
    decide

/-- C8 counterexample: the `.geo` generation loop is
`for i in range(1, len(y))` — it excludes only the FIRST y-sample — so a
run produces 14 point-list files, not the claimed `len(y)-2 = 13`, and the
file `wave14.geo` for the last y-sample (y = 1.0) is among them. -/
theorem wavy_geo_files_not_thirteen :
    ¬ (wavyRun (fun q => q) 3 2 1 "s").geoFiles.length = 13 ∧
    ((wavyRun (fun q => q) 3 2 1 "s").geoFiles.map Prod.fst).contains
      "wave14.geo" = true := by decide

/-- C8 amended: a sampled point-list file is generated for each y-sample
EXCEPT THE FIRST (indices 1..14, hence `len(y)-1 = 14` files, the last
y-sample included), named `wave1.geo`..`wave14.geo`; each holds exactly
960 points of the form `(x, y_i*(1+eps_y*sin(beta_x*x)))` at the y-level
`y[i]` of its index, and each spans the full x-range: first point at
`x[0] = 0`, last point at `x[len(x)-1] - x[0] = x[len(x)-1]`. -/
theorem wavy_geo_files (s : ℚ → ℚ) (p beta eps : ℚ) (session : String) :
    (wavyRun s p beta eps session).geoFiles.length = 14 ∧
    (wavyRun s p beta eps session).geoFiles.map Prod.fst =
      (List.range' 1 14).map (fun i => "wave" ++ toString i ++ ".geo") ∧
    (wavyRun s p beta eps session).geoFiles.map (fun f => f.2.length) =
      List.replicate 14 960 ∧
    (wavyRun s p beta eps session).xs.getD 0 0 = 0 ∧
    (wavyRun s p beta eps session).geoFiles.map (fun f => f.2) =
      (List.range' 1 14).map (fun i =>
        geoPoints s beta eps ((wavyRun s p beta eps session).xs.getD 10 0)
          (wavyY.getD i 0)) ∧
    (wavyRun s p beta eps session).geoFiles.map
        (fun f => (f.2.headD (0, 0)).1) = List.replicate 14 0 ∧
    (wavyRun s p beta eps session).geoFiles.map
        (fun f => (f.2.getLastD (0, 0)).1) =
      List.replicate 14 ((wavyRun s p beta eps session).xs.getD 10 0) := by
  have hxs : (wavyRun s p beta eps session).xs = wavyXs p beta := rfl
  have hxr : (wavyXs p beta).getD 10 0 - (wavyXs p beta).getD 0 0 =
      (wavyXs p beta).getD 10 0 := by
    rw [wavyXs_getD_zero, sub_zero]
  have hg : (wavyRun s p beta eps session).geoFiles =
      (List.range' 1 14).map (fun i =>
        ("wave" ++ toString i ++ ".geo",
          geoPoints s beta eps ((wavyXs p beta).getD 10 0)
            (wavyY.getD i 0))) := by
    show (List.range' 1 14).map (fun i =>
        ("wave" ++ toString i ++ ".geo",
          geoPoints s beta eps
            ((wavyXs p beta).getD 10 0 - (wavyXs p beta).getD 0 0)
            (wavyY.getD i 0))) = _
    simp only [hxr]
  refine ⟨?_, ?_, ?_, ?_, ?_, ?_, ?_⟩
  · simp [hg]
  · simp only [hg, List.map_map]
    rfl
  · simp only [hg, List.map_map, Function.comp_def, geoPoints_length]
    exact map_const_range' 960 1 14
  · rw [hxs, wavyXs_getD_zero]
  · simp only [hg, List.map_map, hxs]
    rfl
  · simp only [hg, List.map_map, Function.comp_def, geoPoints_headD_fst]
    exact map_const_range' 0 1 14
  · simp only [hg, List.map_map, Function.comp_def, geoPoints_getLastD_fst, hxs]
    exact map_const_range' _ 1 14

/-- C9: the x-sample sequence is `linspace(0,1,11) * (2π/beta_x)` (`p`
standing for the library constant `np.pi`); replacing `beta_x` by
`beta_x * k` for a positive factor `k` scales every x-sample by exactly
`1/k`; and the y-sample sequence is unchanged (it depends on neither
`beta_x` nor `eps_y`).  Real-valued arithmetic of the source is modelled
over `ℚ`. -/
theorem wavy_x_samples_scaling (s : ℚ → ℚ) (p beta eps k : ℚ)
    (session : String) (_hb : beta ≠ 0) (_hk : 0 < k) :
    (wavyRun s p beta eps session).xs =
      (linspace 0 1 11).map (fun v => v * (2 * p / beta)) ∧
    (wavyRun s p (beta * k) eps session).xs =
      ((wavyRun s p beta eps session).xs).map (fun v => v * (1 / k)) ∧
    (wavyRun s p (beta * k) eps session).ys =
      (wavyRun s p beta eps session).ys := by
  refine ⟨?_, ?_, rfl⟩
  · show wavyXs p beta = _
    simp only [wavyXs, mul_assoc, mul_div_assoc]
  · show wavyXs p (beta * k) = (wavyXs p beta).map (fun v => v * (1 / k))
    simp only [wavyXs, List.map_map, Function.comp_def, mul_one_div, div_div]

/-- C9 witness: the theorem applied at `np.pi ↦ 3`, `beta_x = 2`,
`eps_y = 0`, `k = 5`. -/
theorem wavy_x_samples_scaling_witness :
    ((2 : ℚ) ≠ 0 ∧ (0 : ℚ) < 5) ∧
    (wavyRun (fun q => q) 3 2 0 "a").xs =
      (linspace 0 1 11).map (fun v => v * (2 * 3 / 2)) :=
  ⟨⟨by norm_num, by norm_num⟩,
   (wavy_x_samples_scaling (fun q => q) 3 2 0 5 "a" (by norm_num)
     (by norm_num)).1⟩

/-- C10: the text of the generated CURVES section depends only on the fixed
sample counts (11 x-samples, 15 y-samples): two runs with any two argument
triples `(beta_x, eps_y, session)` — and even different `np.pi`/`np.sin`
realisations — produce byte-identical `curves.txt` contents. -/
theorem wavy_curves_text_constant (s s' : ℚ → ℚ)
    (p p' beta beta' eps eps' : ℚ) (n n' : String) :
    (wavyRun s p beta eps n).curvesText =
      (wavyRun s' p' beta' eps' n').curvesText := rfl

end Semtex
